import Mathlib

/-!
Verification of the executable supervisor in
`src/auraed/src/cells/cell_service/executables/executable.rs`.

The Rust code is shallowly embedded: the OS is an oracle (spawn outcome,
signal-delivery outcome, wait outcome are data supplied per child), the two
asynchronous log-capture tasks are embedded as the list of `next_line`
results their pipe will yield, and joining a task replays its remaining
reads into the corresponding log channel's delivered-lines list.  `kill`
additionally returns the ordered list of effects it performed, so temporal
ordering claims can be stated about the trace.
-/

namespace Aurae

/-- Embeds `std::io::Error` as carried by the supervisor: only the raw OS
error number is inspected by the code (`raw_os_error()`). -/
structure IOError where
  raw_os_error : Option Int
deriving DecidableEq

/-- Embeds `std::process::ExitStatus` as its raw wait status
(`ExitStatus::from_raw`). -/
structure ExitStatus where
  raw : Int
deriving DecidableEq

/-- `ExitStatus::from_raw` (via `std::os::unix::process::ExitStatusExt`). -/
def ExitStatus.from_raw (raw : Int) : ExitStatus := ⟨raw⟩

/-- POSIX decoding of a raw wait status: `code()` is `Some` exactly when the
process exited normally (low seven bits zero), carrying the exit code byte. -/
def ExitStatus.code (s : ExitStatus) : Option Int :=
  if s.raw % 128 = 0 then some ((s.raw / 256) % 256) else none

/-- Embeds `nix::unistd::Pid`. -/
structure Pid where
  raw : Int
deriving DecidableEq

/-- `Pid::from_raw`. -/
def Pid.from_raw (i : Int) : Pid := ⟨i⟩

/-- The `id as i32` cast in `Executable::pid`: a `u32` reinterpreted as a
two's-complement 32-bit signed integer. -/
def u32_as_i32 (n : Nat) : Int :=
  if n % 2 ^ 32 < 2 ^ 31 then ((n % 2 ^ 32 : Nat) : Int)
  else ((n % 2 ^ 32 : Nat) : Int) - 2 ^ 32

/-- Embeds `LogChannel`: a named, cloneable broadcast handle.  The lines it
has delivered live outside the handle (see `Logs`), matching the Rust code
where `send` goes through a shared broadcast object and never mutates the
`Executable`'s field. -/
structure LogChannel where
  name : String
deriving DecidableEq

/-- `LogChannel::new`. -/
def LogChannel.new (name : String) : LogChannel := ⟨name⟩

/-- The lines delivered so far to the two broadcast channels of one
`Executable` (`send` calls observed by subscribers, in order). -/
structure Logs where
  stdout_sent : List String
  stderr_sent : List String
deriving DecidableEq

/-- Embeds the command configuration held by `TokioCommandWrap`: the fields
the supervisor reads or writes. -/
structure Command where
  program : String
  args : List String
  kill_on_drop : Bool := false
  current_dir : Option String := none
  stdout_piped : Bool := false
  stderr_piped : Bool := false
  uid : Option Nat := none
  gid : Option Nat := none
deriving DecidableEq

/-- One result of `lines.next_line().await` on a capture task's pipe:
a line (`Ok(Some(..))`), end of stream (`Ok(None)`), or a read error. -/
inductive ReadResult where
  | line (s : String)
  | eof
  | err (e : IOError)
deriving DecidableEq

/-- A well-formed pipe stream: the given lines in order, then end-of-stream. -/
def linesThenEof (ls : List String) : List ReadResult :=
  ls.map ReadResult.line ++ [ReadResult.eof]

/-- The body of both capture tasks in `Executable::start`:
`while let Ok(Some(line)) = reader.next_line().await { log_channel.send(line) }`.
Consumes read results in order, appending each line to the delivered list;
stops at end-of-stream or at the first read error. -/
def captureLoop : List ReadResult → List String → List String
  | [], sent => sent
  | ReadResult.line s :: rest, sent => captureLoop rest (sent ++ [s])
  | ReadResult.eof :: _, sent => sent
  | ReadResult.err _ :: _, sent => sent

instance {ε α : Type} [DecidableEq ε] [DecidableEq α] :
    DecidableEq (Except ε α) := fun x y =>
  match x, y with
  | Except.ok a, Except.ok b =>
      if h : a = b then isTrue (congrArg Except.ok h)
      else isFalse (fun hh => h (Except.ok.inj hh))
  | Except.error a, Except.error b =>
      if h : a = b then isTrue (congrArg Except.error h)
      else isFalse (fun hh => h (Except.error.inj hh))
  | Except.ok _, Except.error _ => isFalse (fun hh => Except.noConfusion hh)
  | Except.error _, Except.ok _ => isFalse (fun hh => Except.noConfusion hh)

/-- Embeds `Box<dyn TokioChildWrapper>`: the OS child handle, together with
the oracle saying how the OS answers this child's `id()`, `start_kill()` and
`wait()` calls. -/
structure Child where
  os_id : Option Nat
  start_kill_result : Except IOError Unit
  wait_result : Except IOError ExitStatus
deriving DecidableEq

/-- The outcome of a spawn attempt: the OS either refuses (`Err` from
`spawn()`) or produces a child handle plus the contents its stdout and
stderr pipes will yield to the two capture tasks. -/
structure SpawnOutcome where
  result : Except IOError Child
  stdout_reads : List ReadResult
  stderr_reads : List ReadResult
deriving DecidableEq

/-- Embeds `ExecutableState`.  In `Started`, the two `JoinHandle`s of the
capture tasks are embedded as the read results each task has not yet
consumed; joining the task replays them (see `Executable.kill`). -/
inductive ExecutableState where
  | init (wrapped_command : Command)
  | started (program : String) (args : List String) (child : Child)
      (stdout_task : List ReadResult) (stderr_task : List ReadResult)
  | stopped (status : ExitStatus)
deriving DecidableEq

/-- Rank of a lifecycle variant along `Init → Started → Stopped`. -/
def stateTag : ExecutableState → Nat
  | ExecutableState.init _ => 0
  | ExecutableState.started _ _ _ _ _ => 1
  | ExecutableState.stopped _ => 2

/-- Embeds the `Executable` struct. -/
structure Executable where
  name : String
  description : String
  stdout : LogChannel
  stderr : LogChannel
  state : ExecutableState
deriving DecidableEq

/-- Embeds `ExecutableSpec` at the interface the supervisor consumes. -/
structure ExecutableSpec where
  name : String
  description : String
  wrapped_command : Command
deriving DecidableEq

/-- `Executable::new`. -/
def Executable.new (spec : ExecutableSpec) : Executable :=
  { name := spec.name
    description := spec.description
    stdout := LogChannel.new (spec.name ++ "::stdout")
    stderr := LogChannel.new (spec.name ++ "::stderr")
    state := ExecutableState.init spec.wrapped_command }

/-- The configuration block at the top of `Executable::start`: sets
kill-on-drop, working directory `/`, piped stdout and stderr, and the
optional uid and gid on the stored command (mutated in place). -/
def configure (wrapped_command : Command) (uid gid : Option Nat) : Command :=
  let command := { wrapped_command with
    kill_on_drop := true
    current_dir := some "/"
    stdout_piped := true
    stderr_piped := true }
  let command := match uid with
    | some u => { command with uid := some u }
    | none => command
  match gid with
  | some g => { command with gid := some g }
  | none => command

/-- `Executable::start`.  The `let ... else return Ok(())` guard makes any
non-`Init` state a successful no-op.  In `Init` the stored command is
configured in place, then spawned: on failure the error is returned and the
state stays `Init` (with the configured command, as in the source); on
success the state becomes `Started` with the resolved program, args, child
handle, and the two freshly launched capture tasks. -/
def Executable.start (self : Executable) (uid gid : Option Nat)
    (os : SpawnOutcome) : Except IOError Unit × Executable :=
  match self.state with
  | ExecutableState.started _ _ _ _ _ => (Except.ok (), self)
  | ExecutableState.stopped _ => (Except.ok (), self)
  | ExecutableState.init wrapped_command =>
    let command := configure wrapped_command uid gid
    match os.result with
    | Except.error e =>
        (Except.error e, { self with state := ExecutableState.init command })
    | Except.ok child =>
        let state := ExecutableState.started command.program command.args
          child os.stdout_reads os.stderr_reads
        (Except.ok (), { self with state := state })

/-- The `child.start_kill()` match inside `Executable::kill`: ESRCH
(raw OS error 3, "no such process") is absorbed as success; everything else
is the error. -/
def signalOutcome (child : Child) : Except IOError Unit :=
  match child.start_kill_result with
  | Except.ok _ => Except.ok ()
  | Except.error e =>
      if e.raw_os_error = some 3 then Except.ok () else Except.error e

/-- The `child.wait().await` match inside `Executable::kill`: ECHILD
(raw OS error 10, "no child to wait for") is absorbed as a successful wait
with a synthesized `ExitStatus::from_raw(0)`; everything else is the error.
Both success arms of the source carry `Some(status)`, so the subsequent
`expect("exit status")` cannot fire and the status is carried directly. -/
def waitOutcome (child : Child) : Except IOError ExitStatus :=
  match child.wait_result with
  | Except.ok status => Except.ok status
  | Except.error e =>
      if e.raw_os_error = some 10 then Except.ok (ExitStatus.from_raw 0)
      else Except.error e

/-- The effects `Executable::kill` performs on the `Started` path, in the
order it performs them. -/
inductive KillEvent where
  | signaled
  | waited (status : ExitStatus)
  | tasksJoined
  | stoppedTransition
deriving DecidableEq

/-- `Executable::kill`.  `Init` returns no status, `Stopped` returns the
stored status, both without effects.  `Started` delivers the termination
signal, awaits the exit status, joins both capture tasks (replaying their
remaining reads into the channels; `tokio::join!`'s results are discarded,
so task failure is swallowed), then transitions to `Stopped`.  An error from
either OS step returns early with the executable unchanged. -/
def Executable.kill (self : Executable) (logs : Logs) :
    Except IOError (Option ExitStatus) × Executable × Logs × List KillEvent :=
  match self.state with
  | ExecutableState.init _ => (Except.ok none, self, logs, [])
  | ExecutableState.stopped status =>
      (Except.ok (some status), self, logs, [])
  | ExecutableState.started _ _ child stdout_task stderr_task =>
    match signalOutcome child with
    | Except.error e => (Except.error e, self, logs, [])
    | Except.ok _ =>
      match waitOutcome child with
      | Except.error e =>
          (Except.error e, self, logs, [KillEvent.signaled])
      | Except.ok exit_status =>
          (Except.ok (some exit_status),
           { self with state := ExecutableState.stopped exit_status },
           ⟨captureLoop stdout_task logs.stdout_sent,
            captureLoop stderr_task logs.stderr_sent⟩,
           [KillEvent.signaled, KillEvent.waited exit_status,
            KillEvent.tasksJoined, KillEvent.stoppedTransition])

/-- `Executable::pid`.  Pure query: `None` outside `Started`; in `Started`
it maps `child.id()` (which is `None` once the process has exited but is
not yet reaped) through `Pid::from_raw(id as i32)`. -/
def Executable.pid (self : Executable) : Except IOError (Option Pid) :=
  match self.state with
  | ExecutableState.started _ _ child _ _ =>
      Except.ok (child.os_id.map (fun id => Pid.from_raw (u32_as_i32 id)))
  | _ => Except.ok none

/-- One supervisory call made by the caller, with the OS oracle a spawn
attempt would consult. -/
inductive Call where
  | start (uid gid : Option Nat) (os : SpawnOutcome)
  | kill
deriving DecidableEq

/-- Apply one call to the supervisor state (executable plus channel
contents), discarding the returned value. -/
def applyCall : Call → Executable × Logs → Executable × Logs
  | Call.start uid gid os, (e, logs) => ((e.start uid gid os).2, logs)
  | Call.kill, (e, logs) =>
      ((e.kill logs).2.1, (e.kill logs).2.2.1)

/-- Run a sequence of supervisory calls. -/
def runCalls : List Call → Executable × Logs → Executable × Logs
  | [], s => s
  | c :: cs, s => runCalls cs (applyCall c s)

/-- A concrete launch configuration for instantiating the theorems. -/
def sampleCommand : Command := { program := "/bin/echo", args := ["hello"] }

/-- A concrete spec for instantiating the theorems. -/
def sampleSpec : ExecutableSpec :=
  { name := "echo", description := "sample", wrapped_command := sampleCommand }

/-- A freshly constructed executable, in `Init`. -/
def sampleExec : Executable := Executable.new sampleSpec

/-- A child whose signal and wait calls both succeed. -/
def sampleChild : Child :=
  { os_id := some 42
    start_kill_result := Except.ok ()
    wait_result := Except.ok (ExitStatus.from_raw 0) }

/-- A spawn attempt that succeeds, with one stdout line and empty stderr. -/
def okSpawn : SpawnOutcome :=
  { result := Except.ok sampleChild
    stdout_reads := linesThenEof ["hello"]
    stderr_reads := linesThenEof [] }

/-- A spawn attempt the OS refuses (EACCES, raw error 13). -/
def failSpawn : SpawnOutcome :=
  { result := Except.error ⟨some 13⟩, stdout_reads := [], stderr_reads := [] }

/-- A concrete executable in `Started`. -/
def startedExec : Executable :=
  { sampleExec with
    state :=
      ExecutableState.started "/bin/echo" ["hello"] sampleChild
        (linesThenEof ["hello"]) (linesThenEof []) }

/-- A concrete executable in `Stopped`. -/
def stoppedExec : Executable :=
  { sampleExec with state := ExecutableState.stopped (ExitStatus.from_raw 0) }

/-- A child already reaped elsewhere: `wait` fails with ECHILD (10). -/
def echildChild : Child :=
  { os_id := some 42
    start_kill_result := Except.ok ()
    wait_result := Except.error ⟨some 10⟩ }

/-- A started executable whose `wait` will report ECHILD. -/
def echildExec : Executable :=
  { sampleExec with
    state := ExecutableState.started "/bin/echo" ["hello"] echildChild [] [] }

/-- A child whose `wait` fails with a non-ECHILD error (EIO, 5). -/
def badWaitChild : Child :=
  { os_id := some 42
    start_kill_result := Except.ok ()
    wait_result := Except.error ⟨some 5⟩ }

/-- A started executable whose `wait` will fail with EIO. -/
def badWaitExec : Executable :=
  { sampleExec with
    state := ExecutableState.started "/bin/echo" ["hello"] badWaitChild [] [] }

/-- A child already gone at signal time: `start_kill` fails with ESRCH (3). -/
def esrchChild : Child :=
  { os_id := none
    start_kill_result := Except.error ⟨some 3⟩
    wait_result := Except.ok (ExitStatus.from_raw 0) }

/-- A started executable whose signal delivery will report ESRCH. -/
def esrchExec : Executable :=
  { sampleExec with
    state := ExecutableState.started "/bin/echo" ["hello"] esrchChild [] [] }

/-- A child whose signal delivery fails with a non-ESRCH error (EPERM, 1). -/
def badSignalChild : Child :=
  { os_id := some 42
    start_kill_result := Except.error ⟨some 1⟩
    wait_result := Except.ok (ExitStatus.from_raw 0) }

/-- A started executable whose signal delivery will fail with EPERM. -/
def badSignalExec : Executable :=
  { sampleExec with
    state := ExecutableState.started "/bin/echo" ["hello"] badSignalChild [] [] }

/-- `start` moves the lifecycle rank only from 0 to 1, otherwise keeps it. -/
theorem start_tag_step (e : Executable) (uid gid : Option Nat)
    (os : SpawnOutcome) :
    stateTag (e.start uid gid os).2.state = stateTag e.state ∨
      (stateTag e.state = 0 ∧ stateTag (e.start uid gid os).2.state = 1) := by
  cases hs : e.state with
  | init wc =>
    cases hr : os.result with
    | error err => left; simp [Executable.start, hs, hr, stateTag]
    | ok child => right; simp [Executable.start, hs, hr, stateTag]
  | started p a c so se => left; simp [Executable.start, hs]
  | stopped st => left; simp [Executable.start, hs]

/-- `kill` moves the lifecycle rank only from 1 to 2, otherwise keeps it. -/
theorem kill_tag_step (e : Executable) (logs : Logs) :
    stateTag (e.kill logs).2.1.state = stateTag e.state ∨
      (stateTag e.state = 1 ∧ stateTag (e.kill logs).2.1.state = 2) := by
  cases hs : e.state with
  | init wc => left; simp [Executable.kill, hs]
  | stopped st => left; simp [Executable.kill, hs]
  | started p a c so se =>
    cases hsig : signalOutcome c with
    | error err => left; simp [Executable.kill, hs, hsig]
    | ok u =>
      cases hw : waitOutcome c with
      | error err => left; simp [Executable.kill, hs, hsig, hw]
      | ok st => right; simp [Executable.kill, hs, hsig, hw, stateTag]

/-- One supervisory call never decreases the lifecycle rank. -/
theorem applyCall_tag_le (c : Call) (s : Executable × Logs) :
    stateTag s.1.state ≤ stateTag (applyCall c s).1.state := by
  obtain ⟨e, logs⟩ := s
  cases c with
  | start uid gid os =>
    rcases start_tag_step e uid gid os with h | ⟨h0, h1⟩ <;>
      simp only [applyCall] <;> omega
  | kill =>
    rcases kill_tag_step e logs with h | ⟨h0, h1⟩ <;>
      simp only [applyCall] <;> omega

/-- A sequence of supervisory calls never decreases the lifecycle rank. -/
theorem runCalls_tag_le (cs : List Call) (s : Executable × Logs) :
    stateTag s.1.state ≤ stateTag (runCalls cs s).1.state := by
  induction cs generalizing s with
  | nil => simp [runCalls]
  | cons c cs ih =>
    calc stateTag s.1.state
        ≤ stateTag (applyCall c s).1.state := applyCall_tag_le c s
      _ ≤ stateTag (runCalls cs (applyCall c s)).1.state := ih (applyCall c s)
      _ = stateTag (runCalls (c :: cs) s).1.state := rfl

/-- Claim C1: for every sequence of `start` and `kill` calls on an
`Executable`, the lifecycle only moves forward along
`Init (0) → Started (1) → Stopped (2)`: `start` changes the variant only
from `Init` to `Started`, `kill` changes it only from `Started` to
`Stopped`, and over any call sequence the rank never decreases. -/
theorem c1_lifecycle_forward_only :
    (∀ (e : Executable) (uid gid : Option Nat) (os : SpawnOutcome),
        stateTag (e.start uid gid os).2.state = stateTag e.state ∨
          (stateTag e.state = 0 ∧ stateTag (e.start uid gid os).2.state = 1)) ∧
    (∀ (e : Executable) (logs : Logs),
        stateTag (e.kill logs).2.1.state = stateTag e.state ∨
          (stateTag e.state = 1 ∧ stateTag (e.kill logs).2.1.state = 2)) ∧
    (∀ (cs : List Call) (s : Executable × Logs),
        stateTag s.1.state ≤ stateTag (runCalls cs s).1.state) :=
  ⟨start_tag_step, kill_tag_step, runCalls_tag_le⟩

/-- Claim C5: if `start` is called in `Init` and spawning fails, it returns
the I/O error and the state remains `Init` (holding the configured command,
as the source mutates it in place before spawning); no transition to
`Started` occurs, and a subsequent `start` whose spawn succeeds reaches
`Started`. -/
theorem c5_spawn_failure_keeps_init (e : Executable) (wc : Command)
    (uid gid : Option Nat) (os : SpawnOutcome) (err : IOError)
    (hs : e.state = ExecutableState.init wc)
    (hr : os.result = Except.error err) :
    (e.start uid gid os).1 = Except.error err ∧
    (e.start uid gid os).2 =
      { e with state := ExecutableState.init (configure wc uid gid) } ∧
    stateTag (e.start uid gid os).2.state = 0 ∧
    (∀ (os2 : SpawnOutcome) (child : Child), os2.result = Except.ok child →
        ((e.start uid gid os).2.start uid gid os2).1 = Except.ok () ∧
        stateTag ((e.start uid gid os).2.start uid gid os2).2.state = 1) := by
  refine ⟨?_, ?_, ?_, ?_⟩
  · simp [Executable.start, hs, hr]
  · simp [Executable.start, hs, hr]
  · simp [Executable.start, hs, hr, stateTag]
  · intro os2 child hr2
    constructor
    · simp [Executable.start, hs, hr, hr2]
    · simp [Executable.start, hs, hr, hr2, stateTag]

/-- Claim C5 witness: a concrete `Init` executable, a refused spawn
(EACCES), then a successful retry. -/
theorem c5_spawn_failure_keeps_init_witness :
    sampleExec.state = ExecutableState.init sampleCommand ∧
    failSpawn.result = Except.error ⟨some 13⟩ ∧
    (sampleExec.start none none failSpawn).1 = Except.error ⟨some 13⟩ ∧
    ((sampleExec.start none none failSpawn).2.start none none okSpawn).1 =
      Except.ok () := by
  refine ⟨rfl, rfl, ?_, ?_⟩
  · exact (c5_spawn_failure_keeps_init sampleExec sampleCommand none none
      failSpawn ⟨some 13⟩ rfl rfl).1
  · exact ((c5_spawn_failure_keeps_init sampleExec sampleCommand none none
      failSpawn ⟨some 13⟩ rfl rfl).2.2.2 okSpawn sampleChild rfl).1

/-- Claim C7: in any state other than `Init`, `start` is a no-op returning
success (same executable, no spawn), so a second `start` right after a
successful one returns the executable of the first call unchanged. -/
theorem c7_start_idempotent :
    (∀ (e : Executable) (uid gid : Option Nat) (os : SpawnOutcome),
        stateTag e.state ≠ 0 → e.start uid gid os = (Except.ok (), e)) ∧
    (∀ (e : Executable) (uid gid : Option Nat) (os os2 : SpawnOutcome),
        (e.start uid gid os).1 = Except.ok () →
        (e.start uid gid os).2.start uid gid os2 =
          (Except.ok (), (e.start uid gid os).2)) := by
  constructor
  · intro e uid gid os htag
    cases hs : e.state with
    | init wc => simp [stateTag, hs] at htag
    | started p a c so se => simp [Executable.start, hs]
    | stopped st => simp [Executable.start, hs]
  · intro e uid gid os os2 hok
    cases hs : e.state with
    | init wc =>
      cases hr : os.result with
      | error err => simp [Executable.start, hs, hr] at hok
      | ok child => simp [Executable.start, hs, hr]
    | started p a c so se => simp [Executable.start, hs]
    | stopped st => simp [Executable.start, hs]

/-- Claim C7 witness: `start` on a `Started` executable is a no-op, and a
second `start` after a successful first call changes nothing. -/
theorem c7_start_idempotent_witness :
    stateTag startedExec.state ≠ 0 ∧
    startedExec.start none none okSpawn = (Except.ok (), startedExec) ∧
    (sampleExec.start none none okSpawn).1 = Except.ok () ∧
    (sampleExec.start none none okSpawn).2.start none none okSpawn =
      (Except.ok (), (sampleExec.start none none okSpawn).2) := by
  refine ⟨by decide, ?_, rfl, ?_⟩
  · exact c7_start_idempotent.1 startedExec none none okSpawn (by decide)
  · exact c7_start_idempotent.2 sampleExec none none okSpawn okSpawn rfl

/-- Claim C10: no operation mutates `name`, `description`, or the two
`LogChannel` fields: `start` and `kill` change only the `state` field
(`pid` takes the executable immutably and returns only a result, so it can
mutate nothing), and `start` outside `Init` ignores its `uid`/`gid`
arguments entirely, returning the executable unchanged whatever the
arguments are. -/
theorem c10_frame_conditions :
    (∀ (e : Executable) (uid gid : Option Nat) (os : SpawnOutcome),
        (e.start uid gid os).2.name = e.name ∧
        (e.start uid gid os).2.description = e.description ∧
        (e.start uid gid os).2.stdout = e.stdout ∧
        (e.start uid gid os).2.stderr = e.stderr) ∧
    (∀ (e : Executable) (logs : Logs),
        (e.kill logs).2.1.name = e.name ∧
        (e.kill logs).2.1.description = e.description ∧
        (e.kill logs).2.1.stdout = e.stdout ∧
        (e.kill logs).2.1.stderr = e.stderr) ∧
    (∀ (e : Executable) (uid gid uid2 gid2 : Option Nat)
        (os os2 : SpawnOutcome),
        stateTag e.state ≠ 0 →
        e.start uid gid os = (Except.ok (), e) ∧
        e.start uid gid os = e.start uid2 gid2 os2) := by
  refine ⟨?_, ?_, ?_⟩
  · intro e uid gid os
    cases hs : e.state with
    | init wc => cases hr : os.result <;> simp [Executable.start, hs, hr]
    | started p a c so se => simp [Executable.start, hs]
    | stopped st => simp [Executable.start, hs]
  · intro e logs
    cases hs : e.state with
    | init wc => simp [Executable.kill, hs]
    | stopped st => simp [Executable.kill, hs]
    | started p a c so se =>
      cases hsig : signalOutcome c with
      | error err => simp [Executable.kill, hs, hsig]
      | ok u =>
        cases hw : waitOutcome c with
        | error werr => simp [Executable.kill, hs, hsig, hw]
        | ok st => simp [Executable.kill, hs, hsig, hw]
  · intro e uid gid uid2 gid2 os os2 htag
    cases hs : e.state with
    | init wc => simp [stateTag, hs] at htag
    | started p a c so se => simp [Executable.start, hs]
    | stopped st => simp [Executable.start, hs]

/-- Claim C10 witness: the frame conditions at a concrete `Started`
executable with two different argument sets. -/
theorem c10_frame_conditions_witness :
    (startedExec.kill ⟨[], []⟩).2.1.name = startedExec.name ∧
    stateTag startedExec.state ≠ 0 ∧
    startedExec.start (some 0) (some 0) okSpawn =
      startedExec.start (some 1000) none failSpawn := by
  refine ⟨(c10_frame_conditions.2.1 startedExec ⟨[], []⟩).1, by decide, ?_⟩
  exact (c10_frame_conditions.2.2 startedExec (some 0) (some 0) (some 1000)
    none okSpawn failSpawn (by decide)).2

/-- Replaying a clean stream (its lines, then end-of-stream) delivers
exactly those lines, in order, appended after what was already sent. -/
theorem captureLoop_linesThenEof (ls sent : List String) :
    captureLoop (linesThenEof ls) sent = sent ++ ls := by
  induction ls generalizing sent with
  | nil => simp [linesThenEof, captureLoop]
  | cons l ls ih =>
    show captureLoop (ReadResult.line l :: linesThenEof ls) sent =
      sent ++ (l :: ls)
    rw [captureLoop, ih]
    simp

/-- Claim C6: `kill` in `Init` returns success with no status and no
effects; `kill` in `Stopped` returns success with the recorded status and
no effects; after any `kill` that returned `Ok(Some(st))`, every further
`kill` returns that identical status with no effects. -/
theorem c6_kill_idempotent :
    (∀ (e : Executable) (logs : Logs) (wc : Command),
        e.state = ExecutableState.init wc →
        e.kill logs = (Except.ok none, e, logs, [])) ∧
    (∀ (e : Executable) (logs : Logs) (st : ExitStatus),
        e.state = ExecutableState.stopped st →
        e.kill logs = (Except.ok (some st), e, logs, [])) ∧
    (∀ (e : Executable) (logs logs2 : Logs) (st : ExitStatus),
        (e.kill logs).1 = Except.ok (some st) →
        (e.kill logs).2.1.kill logs2 =
          (Except.ok (some st), (e.kill logs).2.1, logs2, [])) := by
  refine ⟨?_, ?_, ?_⟩
  · intro e logs wc hs
    simp [Executable.kill, hs]
  · intro e logs st hs
    simp [Executable.kill, hs]
  · intro e logs logs2 st hok
    cases hs : e.state with
    | init wc => simp [Executable.kill, hs] at hok
    | stopped st2 =>
      simp [Executable.kill, hs] at hok ⊢
      simp [hok]
    | started p a c so se =>
      cases hsig : signalOutcome c with
      | error err => simp [Executable.kill, hs, hsig] at hok
      | ok u =>
        cases hw : waitOutcome c with
        | error werr => simp [Executable.kill, hs, hsig, hw] at hok
        | ok st2 =>
          simp [Executable.kill, hs, hsig, hw] at hok ⊢
          simp [hok]

/-- Claim C6 witness: `kill` on a fresh `Init` executable yields no status
with no effects; repeating `kill` after a successful one returns the same
status. -/
theorem c6_kill_idempotent_witness :
    sampleExec.kill ⟨[], []⟩ = (Except.ok none, sampleExec, ⟨[], []⟩, []) ∧
    stoppedExec.kill ⟨[], []⟩ =
      (Except.ok (some (ExitStatus.from_raw 0)), stoppedExec, ⟨[], []⟩, []) ∧
    (startedExec.kill ⟨[], []⟩).2.1.kill ⟨["x"], []⟩ =
      (Except.ok (some (ExitStatus.from_raw 0)),
       (startedExec.kill ⟨[], []⟩).2.1, ⟨["x"], []⟩, []) := by
  refine ⟨?_, ?_, ?_⟩
  · exact c6_kill_idempotent.1 sampleExec ⟨[], []⟩ sampleCommand rfl
  · exact c6_kill_idempotent.2.1 stoppedExec ⟨[], []⟩ (ExitStatus.from_raw 0)
      rfl
  · exact c6_kill_idempotent.2.2 startedExec ⟨[], []⟩ ⟨["x"], []⟩
      (ExitStatus.from_raw 0) (by decide)

/-- Claim C2: when `kill` runs in `Started` and both OS steps succeed, it
performs, in order: signal delivery, the wait for the exit status, the join
of both capture tasks, the transition to `Stopped`; it returns that status,
and at return both tasks have replayed their entire remaining streams into
their channels — in particular a clean stream's lines are all delivered
before `kill` returns. -/
theorem c2_kill_ordering_and_flush (e : Executable) (logs : Logs)
    (p : String) (a : List String) (c : Child) (so se : List ReadResult)
    (st : ExitStatus)
    (hs : e.state = ExecutableState.started p a c so se)
    (hsig : signalOutcome c = Except.ok ())
    (hw : waitOutcome c = Except.ok st) :
    e.kill logs = (Except.ok (some st),
      { e with state := ExecutableState.stopped st },
      ⟨captureLoop so logs.stdout_sent, captureLoop se logs.stderr_sent⟩,
      [KillEvent.signaled, KillEvent.waited st, KillEvent.tasksJoined,
       KillEvent.stoppedTransition]) ∧
    (∀ ls : List String, so = linesThenEof ls →
        (e.kill logs).2.2.1.stdout_sent = logs.stdout_sent ++ ls) ∧
    (∀ ls : List String, se = linesThenEof ls →
        (e.kill logs).2.2.1.stderr_sent = logs.stderr_sent ++ ls) := by
  have hmain : e.kill logs = (Except.ok (some st),
      { e with state := ExecutableState.stopped st },
      ⟨captureLoop so logs.stdout_sent, captureLoop se logs.stderr_sent⟩,
      [KillEvent.signaled, KillEvent.waited st, KillEvent.tasksJoined,
       KillEvent.stoppedTransition]) := by
    simp [Executable.kill, hs, hsig, hw]
  refine ⟨hmain, ?_, ?_⟩
  · intro ls hls
    rw [hmain]
    simp [hls, captureLoop_linesThenEof]
  · intro ls hls
    rw [hmain]
    simp [hls, captureLoop_linesThenEof]

/-- Claim C2 witness: a concrete started executable with one pending stdout
line; after `kill`, the trace is in order and the line is delivered. -/
theorem c2_kill_ordering_and_flush_witness :
    startedExec.kill ⟨[], []⟩ = (Except.ok (some (ExitStatus.from_raw 0)),
      { startedExec with state :=
          ExecutableState.stopped (ExitStatus.from_raw 0) },
      ⟨captureLoop (linesThenEof ["hello"]) [], captureLoop (linesThenEof []) []⟩,
      [KillEvent.signaled, KillEvent.waited (ExitStatus.from_raw 0),
       KillEvent.tasksJoined, KillEvent.stoppedTransition]) ∧
    (startedExec.kill ⟨[], []⟩).2.2.1.stdout_sent = ["hello"] := by
  constructor
  · exact (c2_kill_ordering_and_flush startedExec ⟨[], []⟩ "/bin/echo"
      ["hello"] sampleChild (linesThenEof ["hello"]) (linesThenEof [])
      (ExitStatus.from_raw 0) rfl rfl rfl).1
  · exact (c2_kill_ordering_and_flush startedExec ⟨[], []⟩ "/bin/echo"
      ["hello"] sampleChild (linesThenEof ["hello"]) (linesThenEof [])
      (ExitStatus.from_raw 0) rfl rfl rfl).2.1 ["hello"] rfl

/-- Claim C3: in `Started` (with signal delivery succeeding), a wait
failure with raw OS error 10 (ECHILD, "no child to wait for") is treated as
a successful wait yielding the synthesized status `from_raw 0` — which
decodes as "exited with code 0" — and `kill` completes to `Stopped`; any
other wait failure is returned as the I/O error with the executable, hence
its `Started` state, unchanged. -/
theorem c3_echild_synthesized_status (e : Executable) (logs : Logs)
    (p : String) (a : List String) (c : Child) (so se : List ReadResult)
    (hs : e.state = ExecutableState.started p a c so se)
    (hsig : signalOutcome c = Except.ok ()) :
    (∀ err : IOError, c.wait_result = Except.error err →
        err.raw_os_error = some 10 →
        (e.kill logs).1 = Except.ok (some (ExitStatus.from_raw 0)) ∧
        (e.kill logs).2.1.state =
          ExecutableState.stopped (ExitStatus.from_raw 0) ∧
        (ExitStatus.from_raw 0).code = some 0) ∧
    (∀ err : IOError, c.wait_result = Except.error err →
        err.raw_os_error ≠ some 10 →
        e.kill logs = (Except.error err, e, logs, [KillEvent.signaled]) ∧
        (e.kill logs).2.1.state = ExecutableState.started p a c so se) := by
  constructor
  · intro err hwr h10
    have hw : waitOutcome c = Except.ok (ExitStatus.from_raw 0) := by
      simp [waitOutcome, hwr, h10]
    refine ⟨?_, ?_, by decide⟩
    · simp [Executable.kill, hs, hsig, hw]
    · simp [Executable.kill, hs, hsig, hw]
  · intro err hwr h10
    have hw : waitOutcome c = Except.error err := by
      simp [waitOutcome, hwr, h10]
    constructor
    · simp [Executable.kill, hs, hsig, hw]
    · simp [Executable.kill, hs, hsig, hw, hs]

/-- Claim C3 witness: an already-reaped child (ECHILD) yields the
synthesized code-0 status; an EIO wait failure is propagated with the state
still `Started`. -/
theorem c3_echild_synthesized_status_witness :
    (echildExec.kill ⟨[], []⟩).1 =
      Except.ok (some (ExitStatus.from_raw 0)) ∧
    badWaitExec.kill ⟨[], []⟩ =
      (Except.error ⟨some 5⟩, badWaitExec, ⟨[], []⟩, [KillEvent.signaled]) := by
  constructor
  · exact ((c3_echild_synthesized_status echildExec ⟨[], []⟩ "/bin/echo"
      ["hello"] echildChild [] [] rfl rfl).1 ⟨some 10⟩ rfl rfl).1
  · exact ((c3_echild_synthesized_status badWaitExec ⟨[], []⟩ "/bin/echo"
      ["hello"] badWaitChild [] [] rfl rfl).2 ⟨some 5⟩ rfl (by decide)).1

/-- Claim C4: in `Started`, a signal-delivery failure with raw OS error 3
(ESRCH, "no such process") is absorbed as a successful termination request
and `kill` proceeds to the wait step (completing or failing exactly as the
wait outcome dictates); any other signal failure is returned as the I/O
error with the executable, hence its `Started` state, unchanged. -/
theorem c4_esrch_absorbed (e : Executable) (logs : Logs) (p : String)
    (a : List String) (c : Child) (so se : List ReadResult)
    (hs : e.state = ExecutableState.started p a c so se) :
    (∀ err : IOError, c.start_kill_result = Except.error err →
        err.raw_os_error = some 3 →
        signalOutcome c = Except.ok () ∧
        (∀ st : ExitStatus, waitOutcome c = Except.ok st →
            e.kill logs = (Except.ok (some st),
              { e with state := ExecutableState.stopped st },
              ⟨captureLoop so logs.stdout_sent,
               captureLoop se logs.stderr_sent⟩,
              [KillEvent.signaled, KillEvent.waited st,
               KillEvent.tasksJoined, KillEvent.stoppedTransition])) ∧
        (∀ werr : IOError, waitOutcome c = Except.error werr →
            e.kill logs =
              (Except.error werr, e, logs, [KillEvent.signaled]))) ∧
    (∀ err : IOError, c.start_kill_result = Except.error err →
        err.raw_os_error ≠ some 3 →
        e.kill logs = (Except.error err, e, logs, []) ∧
        (e.kill logs).2.1.state = ExecutableState.started p a c so se) := by
  constructor
  · intro err hkr h3
    have hsig : signalOutcome c = Except.ok () := by
      simp [signalOutcome, hkr, h3]
    refine ⟨hsig, ?_, ?_⟩
    · intro st hw
      simp [Executable.kill, hs, hsig, hw]
    · intro werr hw
      simp [Executable.kill, hs, hsig, hw]
  · intro err hkr h3
    have hsig : signalOutcome c = Except.error err := by
      simp [signalOutcome, hkr, h3]
    constructor
    · simp [Executable.kill, hs, hsig]
    · simp [Executable.kill, hs, hsig, hs]

/-- Claim C4 witness: an ESRCH signal failure is absorbed and `kill`
completes from the wait outcome; an EPERM signal failure is propagated with
the state still `Started`. -/
theorem c4_esrch_absorbed_witness :
    signalOutcome esrchChild = Except.ok () ∧
    (esrchExec.kill ⟨[], []⟩).1 =
      Except.ok (some (ExitStatus.from_raw 0)) ∧
    badSignalExec.kill ⟨[], []⟩ =
      (Except.error ⟨some 1⟩, badSignalExec, ⟨[], []⟩, []) := by
  refine ⟨?_, ?_, ?_⟩
  · exact ((c4_esrch_absorbed esrchExec ⟨[], []⟩ "/bin/echo" ["hello"]
      esrchChild [] [] rfl).1 ⟨some 3⟩ rfl rfl).1
  · have h := ((c4_esrch_absorbed esrchExec ⟨[], []⟩ "/bin/echo" ["hello"]
      esrchChild [] [] rfl).1 ⟨some 3⟩ rfl rfl).2.1
      (ExitStatus.from_raw 0) rfl
    rw [h]
  · exact ((c4_esrch_absorbed badSignalExec ⟨[], []⟩ "/bin/echo" ["hello"]
      badSignalChild [] [] rfl).2 ⟨some 1⟩ rfl (by decide)).1

/-- Claim C8: `pid` is a pure query (it takes the executable immutably and
returns only a result): it yields `none` in `Init` and `Stopped`; in
`Started` it maps the handle's OS identifier through
`Pid::from_raw(id as i32)`, and a handle whose identifier is unavailable
also yields `none`. -/
theorem c8_pid_query (e : Executable) :
    (∀ wc : Command, e.state = ExecutableState.init wc →
        e.pid = Except.ok none) ∧
    (∀ st : ExitStatus, e.state = ExecutableState.stopped st →
        e.pid = Except.ok none) ∧
    (∀ (p : String) (a : List String) (c : Child) (so se : List ReadResult),
        e.state = ExecutableState.started p a c so se →
        e.pid = Except.ok
          (c.os_id.map (fun id => Pid.from_raw (u32_as_i32 id))) ∧
        (c.os_id = none → e.pid = Except.ok none) ∧
        (∀ id : Nat, c.os_id = some id →
            e.pid = Except.ok (some (Pid.from_raw (u32_as_i32 id))))) := by
  refine ⟨?_, ?_, ?_⟩
  · intro wc hs
    simp [Executable.pid, hs]
  · intro st hs
    simp [Executable.pid, hs]
  · intro p a c so se hs
    refine ⟨by simp [Executable.pid, hs], ?_, ?_⟩
    · intro hid
      simp [Executable.pid, hs, hid]
    · intro id hid
      simp [Executable.pid, hs, hid]

/-- Claim C8 witness: `pid` at concrete executables in each state, with an
available and an unavailable identifier. -/
theorem c8_pid_query_witness :
    sampleExec.pid = Except.ok none ∧
    stoppedExec.pid = Except.ok none ∧
    startedExec.pid = Except.ok (some (Pid.from_raw 42)) ∧
    esrchExec.pid = Except.ok none := by
  refine ⟨?_, ?_, ?_, ?_⟩
  · exact (c8_pid_query sampleExec).1 sampleCommand rfl
  · exact (c8_pid_query stoppedExec).2.1 (ExitStatus.from_raw 0) rfl
  · have h := ((c8_pid_query startedExec).2.2 "/bin/echo" ["hello"]
      sampleChild (linesThenEof ["hello"]) (linesThenEof []) rfl).2.2 42 rfl
    rw [h]
    simp [u32_as_i32, Pid.from_raw]
  · exact ((c8_pid_query esrchExec).2.2 "/bin/echo" ["hello"] esrchChild
      [] [] rfl).2.1 rfl

/-- Claim C9: each capture task replays its stream one line at a time until
end-of-stream, delivering each line verbatim and in order to its own
channel with no line dropped or duplicated; in particular, after `start`
launches the tasks over clean streams and a successful `kill` joins them,
the stdout channel holds exactly the stdout lines and the stderr channel
exactly the stderr lines, in emission order. -/
theorem c9_capture_verbatim_in_order :
    (∀ ls sent : List String,
        captureLoop (linesThenEof ls) sent = sent ++ ls) ∧
    (∀ (e : Executable) (wc : Command) (uid gid : Option Nat)
        (child : Child) (ls ms : List String) (logs : Logs),
        e.state = ExecutableState.init wc →
        signalOutcome child = Except.ok () →
        ∀ st : ExitStatus, waitOutcome child = Except.ok st →
        ((e.start uid gid
            ⟨Except.ok child, linesThenEof ls, linesThenEof ms⟩).2.kill
          logs).2.2.1 =
          ⟨logs.stdout_sent ++ ls, logs.stderr_sent ++ ms⟩) := by
  constructor
  · exact captureLoop_linesThenEof
  · intro e wc uid gid child ls ms logs hs hsig st hw
    have hstart : (e.start uid gid
        ⟨Except.ok child, linesThenEof ls, linesThenEof ms⟩).2.state =
        ExecutableState.started (configure wc uid gid).program
          (configure wc uid gid).args child (linesThenEof ls)
          (linesThenEof ms) := by
      simp [Executable.start, hs]
    simp [Executable.kill, hstart, hsig, hw, captureLoop_linesThenEof]

/-- Claim C9 witness: a fresh executable started over streams with two
stdout lines and one stderr line; after `kill`, the channels hold exactly
those lines in order. -/
theorem c9_capture_verbatim_in_order_witness :
    captureLoop (linesThenEof ["a", "b"]) [] = ["a", "b"] ∧
    ((sampleExec.start none none
        ⟨Except.ok sampleChild, linesThenEof ["a", "b"],
         linesThenEof ["e"]⟩).2.kill ⟨[], []⟩).2.2.1 =
      ⟨["a", "b"], ["e"]⟩ := by
  constructor
  · exact c9_capture_verbatim_in_order.1 ["a", "b"] []
  · have h := c9_capture_verbatim_in_order.2 sampleExec sampleCommand none
      none sampleChild ["a", "b"] ["e"] ⟨[], []⟩ rfl rfl
      (ExitStatus.from_raw 0) rfl
    rw [h]
    rfl

end Aurae
